import Mathlib

/-!
A verification development for the query-log retrieval and aggregation
engine of a ClickHouse monitoring service.  The Go sources are shallowly
embedded: the repository layer (`internal/repository`, file with
`buildQueryLogsQuery`, `buildDynamicQuery`, `buildAggregationQuery`,
`ParseColumns`, `GetQueryLogByID`, `determineBucketSize`) and the HTTP
handler layer (`internal/handlers/query_log_handler.go`).  Machine strings
and integers are modelled with `String`, `Nat` and `Int`; Go `time.Time`
values are modelled as `Int` nanosecond timestamps (Go durations are int64
nanoseconds); Go `nil` slices are modelled as `Option (List α)` with
`none` for the nil slice.  Whitespace inside SQL text is normalized to
single spaces relative to the Go raw-string literals; nothing proved here
depends on the internal whitespace of the fixed SQL skeletons.
-/

set_option maxRecDepth 100000

namespace QueryMonitor

/-- An element of the positional argument list that accompanies a built
query.  Mirrors the `[]interface{}` argument slices of the Go builders:
string filter values, unsigned thresholds, signed limit/offset values and
time bounds. -/
inductive Arg where
  | str (s : String)
  | nat (n : Nat)
  | int (n : Int)
  | time (t : Int)
deriving DecidableEq, Repr

/-- `models.QueryLogFilter` (internal/models/query_log.go).  Zero values
(`""`, `0`, `none`, `false`) mean "filter not set", exactly as in Go. -/
structure QueryLogFilter where
  dbName : String := ""
  queryID : String := ""
  onlyFailed : Bool := false
  onlySuccess : Bool := false
  minDurationMs : Nat := 0
  user : String := ""
  queryContains : String := ""
  queryKind : String := ""
  startTime : Option Int := none
  endTime : Option Int := none
  limit : Int := 0
  offset : Int := 0
  columns : String := ""
  sortBy : String := ""
  sortOrder : String := ""
deriving DecidableEq, Repr

/-- The sort-eligible columns of `models.ValidSortColumns`. -/
def validSortColumnsList : List String :=
  ["event_time", "memory_usage", "query_duration_ms", "read_bytes",
   "read_rows", "written_bytes", "written_rows"]

/-- Membership test of the Go map `models.ValidSortColumns`. -/
def ValidSortColumns (c : String) : Bool :=
  validSortColumnsList.contains c

/-- `models.AllColumns()` — all retrievable column names, in order. -/
def AllColumns : List String :=
  ["query_id", "query", "event_time", "event_date", "type",
   "query_duration_ms", "memory_usage", "read_rows", "read_bytes",
   "written_rows", "written_bytes", "result_rows", "result_bytes",
   "databases", "tables", "exception_code", "exception", "user",
   "client_hostname", "http_user_agent", "initial_user",
   "initial_query_id", "is_initial_query"]

/-- Membership test of the Go map `models.ValidColumns` (its key set is
exactly the 23 names of `AllColumns`). -/
def ValidColumns (c : String) : Bool :=
  AllColumns.contains c

/-- Repository constant `defaultLimit = 1000`. -/
def defaultLimit : Int := 1000

/-- Repository constant `maxLimit = 10000`. -/
def maxLimit : Int := 10000

/-- The limit clamp performed inside both `buildQueryLogsQuery` and
`buildDynamicQuery`: `if limit <= 0 then defaultLimit else if limit >
maxLimit then maxLimit`. -/
def clampRepoLimit (l : Int) : Int :=
  if l ≤ 0 then defaultLimit else if l > maxLimit then maxLimit else l

/-- `strings.Join(elems, sep)` from the Go standard library, as used by
the builders to join WHERE conditions. -/
def stringsJoin (elems : List String) (sep : String) : String :=
  match elems with
  | [] => ""
  | [x] => x
  | x :: xs => x ++ sep ++ stringsJoin xs sep

/-- The `if len(conditions) > 0 { " WHERE " + strings.Join(conditions, " AND ") }`
step shared verbatim by all three builders. -/
def whereClause (conds : List String) : String :=
  if conds.length > 0 then " WHERE " ++ stringsJoin conds " AND " else ""

/-- The fixed SELECT skeleton of `buildQueryLogsQuery` (whitespace
normalized). -/
def listingBaseQuery : String :=
  "SELECT query_id, query, event_time, event_date, type, query_duration_ms, memory_usage, read_rows, read_bytes, written_rows, written_bytes, result_rows, result_bytes, databases, tables, exception_code, exception, user, client_hostname, http_user_agent, initial_user, initial_query_id, is_initial_query FROM system.query_log"

/-- The WHERE conditions accumulated by `buildQueryLogsQuery`, in source
order (part_007 lines 152-222). -/
def listingConds (f : QueryLogFilter) : List String :=
  (if f.dbName != "" then ["has(databases, ?)"] else []) ++
  (if f.queryID != "" then ["query_id = ?"] else []) ++
  ["type != 'QueryStart'"] ++
  (if f.onlyFailed then ["(exception_code != 0 OR type = 'ExceptionBeforeStart')"] else []) ++
  (if f.onlySuccess then ["(type = 'QueryFinish' AND exception_code = 0)"] else []) ++
  (if f.minDurationMs > 0 then ["query_duration_ms > ?"] else []) ++
  (if f.user != "" then ["user = ?"] else []) ++
  (if f.queryContains != "" then ["positionCaseInsensitive(query, ?) > 0"] else []) ++
  (if f.queryKind != "" then ["query_kind = ?"] else []) ++
  (if f.startTime.isSome then ["event_time >= ?"] else []) ++
  (if f.endTime.isSome then ["event_time <= ?"] else [])

/-- The arguments accumulated in parallel with `listingConds`, in the same
source order. -/
def listingCondArgs (f : QueryLogFilter) : List Arg :=
  (if f.dbName != "" then [Arg.str f.dbName] else []) ++
  (if f.queryID != "" then [Arg.str f.queryID] else []) ++
  (if f.minDurationMs > 0 then [Arg.nat f.minDurationMs] else []) ++
  (if f.user != "" then [Arg.str f.user] else []) ++
  (if f.queryContains != "" then [Arg.str f.queryContains] else []) ++
  (if f.queryKind != "" then [Arg.str f.queryKind] else []) ++
  (match f.startTime with | some t => [Arg.time t] | none => []) ++
  (match f.endTime with | some t => [Arg.time t] | none => [])

/-- Sort-column resolution of `buildQueryLogsQuery` (part_007 lines
235-239): `event_time` unless `filter.SortBy` is set and allow-listed. -/
def listingSortColumn (f : QueryLogFilter) : String :=
  if f.sortBy != "" && ValidSortColumns f.sortBy then f.sortBy else "event_time"

/-- Sort-direction resolution of `buildQueryLogsQuery` (part_007 lines
236, 240-242): `DESC` unless `filter.SortOrder == "asc"`. -/
def listingSortDir (f : QueryLogFilter) : String :=
  if f.sortOrder == "asc" then "ASC" else "DESC"

/-- `buildQueryLogsQuery` (part_007 lines 118-264): the full-record
listing query text and its positional argument list. -/
def buildQueryLogsQuery (f : QueryLogFilter) : String × List Arg :=
  (listingBaseQuery ++ whereClause (listingConds f) ++
     " ORDER BY " ++ listingSortColumn f ++ " " ++ listingSortDir f ++
     " LIMIT ?" ++ (if f.offset > 0 then " OFFSET ?" else ""),
   listingCondArgs f ++ [Arg.int (clampRepoLimit f.limit)] ++
     (if f.offset > 0 then [Arg.int f.offset] else []))

/-- The WHERE conditions accumulated by `buildDynamicQuery` (part_007
lines 386-434).  Note there is no `query_kind` branch in the source. -/
def dynamicConds (f : QueryLogFilter) : List String :=
  (if f.dbName != "" then ["has(databases, ?)"] else []) ++
  (if f.queryID != "" then ["query_id = ?"] else []) ++
  ["type != 'QueryStart'"] ++
  (if f.onlyFailed then ["(exception_code != 0 OR type = 'ExceptionBeforeStart')"] else []) ++
  (if f.onlySuccess then ["(type = 'QueryFinish' AND exception_code = 0)"] else []) ++
  (if f.minDurationMs > 0 then ["query_duration_ms > ?"] else []) ++
  (if f.user != "" then ["user = ?"] else []) ++
  (if f.queryContains != "" then ["positionCaseInsensitive(query, ?) > 0"] else []) ++
  (if f.startTime.isSome then ["event_time >= ?"] else []) ++
  (if f.endTime.isSome then ["event_time <= ?"] else [])

/-- The arguments accumulated in parallel with `dynamicConds`. -/
def dynamicCondArgs (f : QueryLogFilter) : List Arg :=
  (if f.dbName != "" then [Arg.str f.dbName] else []) ++
  (if f.queryID != "" then [Arg.str f.queryID] else []) ++
  (if f.minDurationMs > 0 then [Arg.nat f.minDurationMs] else []) ++
  (if f.user != "" then [Arg.str f.user] else []) ++
  (if f.queryContains != "" then [Arg.str f.queryContains] else []) ++
  (match f.startTime with | some t => [Arg.time t] | none => []) ++
  (match f.endTime with | some t => [Arg.time t] | none => [])

/-- `buildDynamicQuery` (part_007 lines 380-459): projected-columns query.
The ORDER BY is the fixed `event_time DESC` of line 441. -/
def buildDynamicQuery (f : QueryLogFilter) (columns : List String) : String × List Arg :=
  ("SELECT " ++ stringsJoin columns ", " ++ " FROM system.query_log" ++
     whereClause (dynamicConds f) ++ " ORDER BY event_time DESC" ++
     " LIMIT ?" ++ (if f.offset > 0 then " OFFSET ?" else ""),
   dynamicCondArgs f ++ [Arg.int (clampRepoLimit f.limit)] ++
     (if f.offset > 0 then [Arg.int f.offset] else []))

/-- Text of the aggregation base query before the interpolated bucket
interval (part_007 lines 648-660, whitespace normalized). -/
def aggBasePrefix : String :=
  "SELECT toStartOfInterval(event_time, INTERVAL "

/-- Text of the aggregation base query after the interpolated bucket
interval: the aggregate column list, including the failed-query counter. -/
def aggBaseSuffix : String :=
  ") as time_bucket, COUNT(*) as total_queries, AVG(query_duration_ms) as avg_duration_ms, MAX(query_duration_ms) as max_duration_ms, AVG(memory_usage) as avg_memory_usage, MAX(memory_usage) as max_memory_usage, SUM(read_bytes) as total_read_bytes, SUM(written_bytes) as total_written_bytes, SUM(CASE WHEN exception_code != 0 OR type = 'ExceptionBeforeStart' THEN 1 ELSE 0 END) as failed_queries FROM system.query_log"

/-- The WHERE conditions accumulated by `buildAggregationQuery` (part_007
lines 662-705).  The `type != 'QueryStart'` exclusion comes first here;
there are no `query_id` and no `query_kind` branches in the source. -/
def aggConds (f : QueryLogFilter) : List String :=
  ["type != 'QueryStart'"] ++
  (if f.dbName != "" then ["has(databases, ?)"] else []) ++
  (if f.onlyFailed then ["(exception_code != 0 OR type = 'ExceptionBeforeStart')"] else []) ++
  (if f.onlySuccess then ["(type = 'QueryFinish' AND exception_code = 0)"] else []) ++
  (if f.minDurationMs > 0 then ["query_duration_ms > ?"] else []) ++
  (if f.user != "" then ["user = ?"] else []) ++
  (if f.queryContains != "" then ["positionCaseInsensitive(query, ?) > 0"] else []) ++
  (if f.startTime.isSome then ["event_time >= ?"] else []) ++
  (if f.endTime.isSome then ["event_time <= ?"] else [])

/-- The arguments accumulated in parallel with `aggConds`. -/
def aggCondArgs (f : QueryLogFilter) : List Arg :=
  (if f.dbName != "" then [Arg.str f.dbName] else []) ++
  (if f.minDurationMs > 0 then [Arg.nat f.minDurationMs] else []) ++
  (if f.user != "" then [Arg.str f.user] else []) ++
  (if f.queryContains != "" then [Arg.str f.queryContains] else []) ++
  (match f.startTime with | some t => [Arg.time t] | none => []) ++
  (match f.endTime with | some t => [Arg.time t] | none => [])

/-- `buildAggregationQuery` (part_007 lines 645-718).  The bucket interval
is inlined by `fmt.Sprintf` (it is server-computed, never user input); no
LIMIT or OFFSET is emitted. -/
def buildAggregationQuery (f : QueryLogFilter) (bucketInterval : String) : String × List Arg :=
  (aggBasePrefix ++ bucketInterval ++ aggBaseSuffix ++
     whereClause (aggConds f) ++ " GROUP BY time_bucket ORDER BY time_bucket ASC",
   aggCondArgs f)

/-- The fixed SQL of `GetQueryLogByID` (part_007 lines 490-519, whitespace
normalized): exact id match, most recent first, single row. -/
def getQueryLogByIDQuery : String :=
  "SELECT query_id, query, event_time, event_date, type, query_duration_ms, memory_usage, read_rows, read_bytes, written_rows, written_bytes, result_rows, result_bytes, databases, tables, exception_code, exception, user, client_hostname, http_user_agent, initial_user, initial_query_id, is_initial_query FROM system.query_log WHERE query_id = ? ORDER BY event_time DESC LIMIT 1"

/-- `repository.BucketSize`: a ClickHouse interval string plus the short
human-readable label. -/
structure BucketSize where
  interval : String
  label : String
deriving DecidableEq, Repr

/-- Nanoseconds per second (Go `time.Duration` is int64 nanoseconds). -/
def nsSecond : Int := 1000000000

/-- Go `time.Minute` in nanoseconds. -/
def nsMinute : Int := 60 * nsSecond

/-- Go `time.Hour` in nanoseconds. -/
def nsHour : Int := 60 * nsMinute

/-- 24 Go hours in nanoseconds. -/
def nsDay : Int := 24 * nsHour

/-- `determineBucketSize` (part_007 lines 565-601): first-match-wins
policy over the span `endTime - startTime`; 1-minute default when either
bound is absent. -/
def determineBucketSize (startTime endTime : Option Int) : BucketSize :=
  match startTime, endTime with
  | some s, some e =>
    let duration := e - s
    if duration ≤ 5 * nsMinute then ⟨"5 SECOND", "5s"⟩
    else if duration ≤ 30 * nsMinute then ⟨"30 SECOND", "30s"⟩
    else if duration ≤ 2 * nsHour then ⟨"1 MINUTE", "1m"⟩
    else if duration ≤ 6 * nsHour then ⟨"3 MINUTE", "3m"⟩
    else if duration ≤ 24 * nsHour then ⟨"15 MINUTE", "15m"⟩
    else if duration ≤ 7 * nsDay then ⟨"1 HOUR", "1h"⟩
    else if duration ≤ 30 * nsDay then ⟨"6 HOUR", "6h"⟩
    else ⟨"1 DAY", "1d"⟩
  | _, _ => ⟨"1 MINUTE", "1m"⟩

/-- The bucket policy table exactly as the specification states it
(spec §4.5), written independently of the source for a refinement
comparison with `determineBucketSize`: apply the rows in order, first
match wins; if either bound is absent, default to the 1-minute spec. -/
def bucketPolicySpec (startTime endTime : Option Int) : BucketSize :=
  match startTime, endTime with
  | some s, some e =>
    let span := e - s
    if span ≤ 5 * nsMinute then ⟨"5 SECOND", "5s"⟩
    else if span ≤ 30 * nsMinute then ⟨"30 SECOND", "30s"⟩
    else if span ≤ 2 * nsHour then ⟨"1 MINUTE", "1m"⟩
    else if span ≤ 6 * nsHour then ⟨"3 MINUTE", "3m"⟩
    else if span ≤ 24 * nsHour then ⟨"15 MINUTE", "15m"⟩
    else if span ≤ 7 * nsDay then ⟨"1 HOUR", "1h"⟩
    else if span ≤ 30 * nsDay then ⟨"6 HOUR", "6h"⟩
    else ⟨"1 DAY", "1d"⟩
  | _, _ => ⟨"1 MINUTE", "1m"⟩

/-- The whitespace characters Go `strings.TrimSpace` strips from the
column fragments (the ASCII ones; the input is an HTTP query
parameter). -/
def isSpaceChar (c : Char) : Bool :=
  c = ' ' || c = '\t' || c = '\n' || c = '\r'

/-- Go `strings.TrimSpace`, over the character list of the string. -/
def goTrimSpace (s : String) : String :=
  ⟨((s.data.dropWhile isSpaceChar).reverse.dropWhile isSpaceChar).reverse⟩

/-- Go `strings.Split(s, ",")` over the character list: split at every
comma, keeping empty components. -/
def splitCommaChars : List Char → List (List Char)
  | [] => [[]]
  | c :: cs =>
    if c = ',' then [] :: splitCommaChars cs
    else
      match splitCommaChars cs with
      | [] => [[c]]
      | g :: gs => (c :: g) :: gs

/-- Go `strings.Split(columnsParam, ",")`. -/
def goSplitComma (s : String) : List String :=
  (splitCommaChars s.data).map (fun l => ⟨l⟩)

/-- The recursive body of `ParseColumns` (part_007 lines 273-285): walk
the comma-split components, trim each, skip empties, fail on the first
name outside the registry, collect the rest in order. -/
def parseColumnsLoop : List String → Except String (List String)
  | [] => Except.ok []
  | c :: rest =>
    let t := goTrimSpace c
    if t == "" then parseColumnsLoop rest
    else if ValidColumns t then
      match parseColumnsLoop rest with
      | Except.ok v => Except.ok (t :: v)
      | Except.error e => Except.error e
    else Except.error ("invalid column: " ++ t)

/-- `ParseColumns` (part_007 lines 266-291): empty parameter means all
registry columns; otherwise validate the comma-separated names and
require at least one surviving name. -/
def ParseColumns (columnsParam : String) : Except String (List String) :=
  if columnsParam == "" then Except.ok AllColumns
  else
    match parseColumnsLoop (goSplitComma columnsParam) with
    | Except.error e => Except.error e
    | Except.ok [] => Except.error "at least one valid column is required"
    | Except.ok v => Except.ok v

/-- The column names a projection request actually carries: the
comma-split components, trimmed, with empty components dropped.  Used to
state claims about `ParseColumns`. -/
def requestedColumnNames (columnsParam : String) : List String :=
  ((goSplitComma columnsParam).map goTrimSpace).filter (fun c => c != "")

/-- The pagination-metadata clamp of handler `GetQueryLogs`
(query_log_handler.go lines 72-77).  It feeds only the response's
`pagination.limit` field; the filter passed to the repository is left
unchanged. -/
def paginationLimit (l : Int) : Int :=
  if l ≤ 0 then 100 else if l > 1000 then 1000 else l

/-- The limit rewrite of handler `ExportCSV` (query_log_handler.go lines
286-290), written back into the filter before the repository call. -/
def exportLimitClamp (l : Int) : Int :=
  if l ≤ 0 then 1000 else if l > 100000 then 100000 else l

/-- Outcome of a handler run, abstracting the HTTP layer: either a 400
response (no store call is issued) or a store call carrying the built
query, its argument list, and the limit value the handler itself reports
(pagination metadata for listing, the clamped export limit for CSV). -/
inductive HandlerOutcome where
  | badRequest (errKind : String) (message : String)
  | storeQuery (query : String) (args : List Arg) (reportedLimit : Int)
deriving DecidableEq, Repr

/-- Handler `GetQueryLogs` (query_log_handler.go lines 60-134) up to the
store call: compute the metadata limit, branch on the `columns`
parameter, validate the projection, and issue the corresponding
repository query.  Binding errors of the HTTP layer are out of scope. -/
def handleGetQueryLogs (f : QueryLogFilter) : HandlerOutcome :=
  let lim := paginationLimit f.limit
  if f.columns != "" then
    match ParseColumns f.columns with
    | Except.error msg => HandlerOutcome.badRequest "invalid_columns" msg
    | Except.ok cols =>
      HandlerOutcome.storeQuery (buildDynamicQuery f cols).1 (buildDynamicQuery f cols).2 lim
  else
    HandlerOutcome.storeQuery (buildQueryLogsQuery f).1 (buildQueryLogsQuery f).2 lim

/-- Handler `ExportCSV` (query_log_handler.go lines 257-293) up to the
store call: `columns` is mandatory, then validated; the filter's limit is
rewritten by `exportLimitClamp` before `GetQueryLogsDynamic` runs. -/
def handleExportCSV (f : QueryLogFilter) : HandlerOutcome :=
  if f.columns == "" then
    HandlerOutcome.badRequest "missing_columns" "columns parameter is required for CSV export"
  else
    match ParseColumns f.columns with
    | Except.error msg => HandlerOutcome.badRequest "invalid_columns" msg
    | Except.ok cols =>
      let g := {f with limit := exportLimitClamp f.limit}
      HandlerOutcome.storeQuery (buildDynamicQuery g cols).1 (buildDynamicQuery g cols).2 g.limit

/-- The fields of a `system.query_log` row that the embedded predicates
inspect (a slice of `models.QueryLog`). -/
structure QueryLogRecord where
  queryID : String := ""
  query : String := ""
  eventTime : Int := 0
  type : String := ""
  queryDurationMs : Nat := 0
  user : String := ""
  exceptionCode : Int := 0
deriving DecidableEq, Repr

/-- Boolean semantics of the failure predicate the source emits twice:
the `only_failed` condition `(exception_code != 0 OR type =
'ExceptionBeforeStart')` (part_007 line 174) and the aggregation counter
`SUM(CASE WHEN exception_code != 0 OR type = 'ExceptionBeforeStart' THEN
1 ELSE 0 END)` (part_007 line 658). -/
def isFailedRecord (r : QueryLogRecord) : Bool :=
  (r.exceptionCode != 0) || (r.type == "ExceptionBeforeStart")

/-- Row semantics of the `GetQueryLogByID` SQL: keep the rows whose
`query_id` equals the argument, order by `event_time` descending, return
the first (`LIMIT 1`).  Implemented as a maximum-by-event-time scan; ties
are broken towards the earlier row of the table, which the SQL leaves
unspecified. -/
def mostRecent : List QueryLogRecord → Option QueryLogRecord
  | [] => none
  | r :: rs =>
    match mostRecent rs with
    | none => some r
    | some m => if r.eventTime ≥ m.eventTime then some r else some m

/-- Evaluate `getQueryLogByIDQuery` over a table of rows. -/
def getQueryLogByIDEval (table : List QueryLogRecord) (id : String) : Option QueryLogRecord :=
  mostRecent (table.filter (fun r => r.queryID == id))

/-- A Go slice of element type `α`: `none` is the nil slice (which
`encoding/json` marshals to `null`), `some l` a non-nil slice (marshalled
to a JSON array, `[]` when empty). -/
def GoSlice (α : Type) : Type := Option (List α)

/-- Go `append`: appending to the nil slice allocates a fresh non-nil
slice. -/
def goSliceAppend {α : Type} (s : GoSlice α) (x : α) : GoSlice α :=
  match s with
  | none => some [x]
  | some l => some (l ++ [x])

/-- The scan loop of repository `GetQueryLogs` (part_007 lines 49-85):
`var logs []models.QueryLog` starts as the nil slice and grows by
`append`. -/
def scanQueryLogs (rows : List QueryLogRecord) : GoSlice QueryLogRecord :=
  rows.foldl goSliceAppend none

/-- A dynamically projected row, as produced by `GetQueryLogsDynamic`:
a column-keyed association of rendered cell values.  The cell decoding
itself is irrelevant to the claims below. -/
def DynamicRow : Type := List (String × String)

/-- The scan loop of repository `GetQueryLogsDynamic` (part_007 lines
304-322): `results := make([]map[string]interface{}, 0)` starts as a
non-nil empty slice and grows by `append`. -/
def scanDynamicRows (rows : List DynamicRow) : GoSlice DynamicRow :=
  rows.foldl goSliceAppend (some [])

/-- How `encoding/json` marshals the `data` field holding a Go slice:
the nil slice becomes `null`, any non-nil slice becomes a JSON array. -/
def goSliceJSON {α : Type} (enc : α → String) (s : GoSlice α) : String :=
  match s with
  | none => "null"
  | some l => "[" ++ stringsJoin (l.map enc) "," ++ "]"

/-- `models.QueryLogMetricsResponse`, generic in the metric row type
(the numeric aggregates play no role in the claims below). -/
structure QueryLogMetricsResponse (M : Type) where
  data : List M
  bucket_size : String
  bucket_label : String
deriving Repr

/-- The response assembly of handler `GetAggregatedMetrics`
(query_log_handler.go lines 238-242): `BucketSize: bucket.Label,
BucketLabel: bucket.Interval`. -/
def buildMetricsResponse {M : Type} (metrics : List M) (bucket : BucketSize) :
    QueryLogMetricsResponse M :=
  { data := metrics, bucket_size := bucket.label, bucket_label := bucket.interval }

/-- Replace exactly the five string-valued filter fields whose values
the builders bind as query parameters, leaving every other field
untouched. -/
def withStringFields (f : QueryLogFilter) (db qid u qc qk : String) : QueryLogFilter :=
  {f with dbName := db, queryID := qid, user := u, queryContains := qc, queryKind := qk}

/-- Every WHERE condition string any of the three builders can emit. -/
def allCondStrings : List String :=
  ["has(databases, ?)", "query_id = ?", "type != 'QueryStart'",
   "(exception_code != 0 OR type = 'ExceptionBeforeStart')",
   "(type = 'QueryFinish' AND exception_code = 0)",
   "query_duration_ms > ?", "user = ?",
   "positionCaseInsensitive(query, ?) > 0",
   "query_kind = ?", "event_time >= ?", "event_time <= ?"]

theorem mem_ite_singleton {α : Type} {c s : α} {b : Prop} [Decidable b]
    (h : c ∈ if b then [s] else ([] : List α)) : c = s := by
  split at h
  · simpa using h
  · simp at h

theorem mem_ite_singleton_iff {α : Type} {c s : α} {b : Prop} [Decidable b] :
    (c ∈ if b then [s] else ([] : List α)) ↔ (b ∧ c = s) := by
  split
  · rename_i hb
    simp [hb]
  · rename_i hb
    simp [hb]

theorem listingConds_subset (f : QueryLogFilter) :
    ∀ c ∈ listingConds f, c ∈ allCondStrings := by
  intro c hc
  simp only [listingConds, List.mem_append] at hc
  rcases hc with (((((((((h | h) | h) | h) | h) | h) | h) | h) | h) | h) | h
  all_goals
    first
      | (rw [mem_ite_singleton h]; decide)
      | (rw [List.mem_singleton] at h; rw [h]; decide)

theorem char_not_mem_stringsJoin {p : Char} {l : List String} {sep : String}
    (hl : ∀ x ∈ l, p ∉ x.data) (hs : p ∉ sep.data) :
    p ∉ (stringsJoin l sep).data := by
  induction l with
  | nil => simp [stringsJoin]
  | cons x xs ih =>
    cases xs with
    | nil => simpa [stringsJoin] using hl x (by simp)
    | cons y ys =>
      have hx := hl x (by simp)
      have hj := ih (fun z hz => hl z (by simp [hz]))
      simp only [stringsJoin, String.data_append, List.mem_append, not_or]
      exact ⟨⟨hx, hs⟩, hj⟩

theorem char_not_mem_whereClause {p : Char} {conds : List String}
    (h : ∀ c ∈ conds, p ∉ c.data) (hw : p ∉ " WHERE ".data) (ha : p ∉ " AND ".data) :
    p ∉ (whereClause conds).data := by
  unfold whereClause
  split
  · simp only [String.data_append, List.mem_append, not_or]
    exact ⟨hw, char_not_mem_stringsJoin h ha⟩
  · simp [String]

/-- The column the listing ORDER BY resolves to is always allow-listed
(so an arbitrary `sort_by` value is never interpolated). -/
theorem listingSortColumn_valid (f : QueryLogFilter) :
    ValidSortColumns (listingSortColumn f) = true := by
  simp only [listingSortColumn]
  split
  · rename_i h
    exact Bool.and_elim_right h
  · decide

theorem listingSortColumn_noSemi (f : QueryLogFilter) :
    ';' ∉ (listingSortColumn f).data := by
  have h : listingSortColumn f ∈ validSortColumnsList := by
    have := listingSortColumn_valid f
    simpa [ValidSortColumns] using this
  simp only [validSortColumnsList, List.mem_cons, List.not_mem_nil, or_false] at h
  rcases h with h | h | h | h | h | h | h <;> rw [h] <;> decide

theorem listingSortDir_noSemi (f : QueryLogFilter) :
    ';' ∉ (listingSortDir f).data := by
  unfold listingSortDir
  split <;> decide

/-- No semicolon ever occurs in the text of the built listing query, so
no value containing a semicolon can be a substring of it. -/
theorem listingText_noSemi (f : QueryLogFilter) :
    ';' ∉ (buildQueryLogsQuery f).1.data := by
  have hall : ∀ c ∈ allCondStrings, ';' ∉ c.data := by decide
  have hconds : ∀ c ∈ listingConds f, ';' ∉ c.data :=
    fun c hc => hall c (listingConds_subset f c hc)
  simp only [buildQueryLogsQuery, String.data_append, List.mem_append, not_or]
  refine ⟨⟨⟨⟨⟨⟨⟨by decide, ?_⟩, by decide⟩, ?_⟩, by decide⟩, ?_⟩, by decide⟩, ?_⟩
  · exact char_not_mem_whereClause hconds (by decide) (by decide)
  · exact listingSortColumn_noSemi f
  · exact listingSortDir_noSemi f
  · split <;> decide

/-- C1: injection safety.  The query text of each of the three builders
is a function of which string filter fields are set, never of their
contents — replacing the five bindable string values by any others with
the same emptiness pattern leaves all three query texts unchanged — while
each active value is passed in the argument list; and for the listing
text no value containing a semicolon (as every injection payload with a
statement separator does) can occur as a substring, since the built text
contains no semicolon at all. -/
theorem c1_injection_safety (f : QueryLogFilter) (db qid u qc qk : String)
    (cols : List String) (iv : String)
    (hdb : (db != "") = (f.dbName != "")) (hqid : (qid != "") = (f.queryID != ""))
    (hu : (u != "") = (f.user != "")) (hqc : (qc != "") = (f.queryContains != ""))
    (hqk : (qk != "") = (f.queryKind != "")) :
    (buildQueryLogsQuery (withStringFields f db qid u qc qk)).1 = (buildQueryLogsQuery f).1
  ∧ (buildDynamicQuery (withStringFields f db qid u qc qk) cols).1
      = (buildDynamicQuery f cols).1
  ∧ (buildAggregationQuery (withStringFields f db qid u qc qk) iv).1
      = (buildAggregationQuery f iv).1
  ∧ ((f.dbName != "") = true → Arg.str f.dbName ∈ (buildQueryLogsQuery f).2)
  ∧ ((f.queryID != "") = true → Arg.str f.queryID ∈ (buildQueryLogsQuery f).2)
  ∧ ((f.user != "") = true → Arg.str f.user ∈ (buildQueryLogsQuery f).2)
  ∧ ((f.queryContains != "") = true → Arg.str f.queryContains ∈ (buildQueryLogsQuery f).2)
  ∧ ((f.queryKind != "") = true → Arg.str f.queryKind ∈ (buildQueryLogsQuery f).2)
  ∧ ((f.dbName != "") = true → Arg.str f.dbName ∈ (buildDynamicQuery f cols).2)
  ∧ ((f.queryContains != "") = true → Arg.str f.queryContains ∈ (buildDynamicQuery f cols).2)
  ∧ ((f.dbName != "") = true → Arg.str f.dbName ∈ (buildAggregationQuery f iv).2)
  ∧ ((f.queryContains != "") = true → Arg.str f.queryContains ∈ (buildAggregationQuery f iv).2)
  ∧ (∀ v : String, ';' ∈ v.data → ¬ (v.data <:+: (buildQueryLogsQuery f).1.data)) := by
  refine ⟨?_, ?_, ?_, ?_, ?_, ?_, ?_, ?_, ?_, ?_, ?_, ?_, ?_⟩
  · simp only [buildQueryLogsQuery, listingConds, listingSortColumn, listingSortDir,
      withStringFields, hdb, hqid, hu, hqc, hqk]
  · simp only [buildDynamicQuery, dynamicConds, withStringFields, hdb, hqid, hu, hqc]
  · simp only [buildAggregationQuery, aggConds, withStringFields, hdb, hu, hqc]
  · intro h
    simp [buildQueryLogsQuery, listingCondArgs, h]
  · intro h
    simp [buildQueryLogsQuery, listingCondArgs, h]
  · intro h
    simp [buildQueryLogsQuery, listingCondArgs, h]
  · intro h
    simp [buildQueryLogsQuery, listingCondArgs, h]
  · intro h
    simp [buildQueryLogsQuery, listingCondArgs, h]
  · intro h
    simp [buildDynamicQuery, dynamicCondArgs, h]
  · intro h
    simp [buildDynamicQuery, dynamicCondArgs, h]
  · intro h
    simp [buildAggregationQuery, aggCondArgs, h]
  · intro h
    simp [buildAggregationQuery, aggCondArgs, h]
  · intro v hv hinf
    exact absurd (hinf.subset hv) (listingText_noSemi f)

/-- A filter whose bindable string fields all carry SQL metacharacters
(quotes, semicolons, comment sequences). -/
def injFilterExample : QueryLogFilter :=
  {dbName := "db'; DROP TABLE logs--", queryID := "id' OR '1'='1",
   user := "u\"; --", queryContains := "'; DELETE FROM t; --",
   queryKind := "Select'; --"}

/-- Witness for `c1_injection_safety` at a concrete metacharacter-laden
filter. -/
theorem c1_injection_safety_witness :
    (buildQueryLogsQuery (withStringFields injFilterExample "a" "b" "c" "d" "e")).1
      = (buildQueryLogsQuery injFilterExample).1
  ∧ Arg.str "db'; DROP TABLE logs--" ∈ (buildQueryLogsQuery injFilterExample).2
  ∧ ¬ ("'; DELETE FROM t; --".data <:+: (buildQueryLogsQuery injFilterExample).1.data) := by
  obtain ⟨h1, h2, h3, h4, h5, h6, h7, h8, h9, h10, h11, h12, h13⟩ :=
    c1_injection_safety injFilterExample "a" "b" "c" "d" "e" [] "1 MINUTE"
      (by decide) (by decide) (by decide) (by decide) (by decide)
  exact ⟨h1, h4 (by decide), h13 "'; DELETE FROM t; --" (by decide)⟩

/-- C6: the bucket sizer is a total function of an optional (start, end)
pair; absent bounds give the 1-minute spec, and otherwise the
first-match-wins policy table of the spec applies (5 min → 5s, 30 min →
30s, 2 h → 1m, 6 h → 3m, 1 day → 15m, 1 week → 1h, 30 days → 6h, else
1d); in particular a 14-day span yields the 6-hour spec. -/
theorem c6_bucket_sizer (startTime endTime : Option Int) :
    determineBucketSize startTime endTime = bucketPolicySpec startTime endTime
  ∧ determineBucketSize none endTime = ⟨"1 MINUTE", "1m"⟩
  ∧ determineBucketSize startTime none = ⟨"1 MINUTE", "1m"⟩
  ∧ determineBucketSize (some 0) (some (14 * nsDay)) = ⟨"6 HOUR", "6h"⟩ := by
  refine ⟨?_, ?_, ?_, by decide⟩
  · cases startTime <;> cases endTime <;> rfl
  · cases endTime <;> rfl
  · cases startTime <;> rfl

/-- C10: the aggregated-metrics response carries the short human label in
its `bucket_size` field and the ClickHouse interval string in its
`bucket_label` field — the reverse of what the field names suggest; for
the default bucket this is `bucket_size = "1m"`, `bucket_label =
"1 MINUTE"`. -/
theorem c10_bucket_fields_swapped {M : Type} (metrics : List M) (st et : Option Int) :
    (buildMetricsResponse metrics (determineBucketSize st et)).bucket_size
        = (determineBucketSize st et).label
  ∧ (buildMetricsResponse metrics (determineBucketSize st et)).bucket_label
        = (determineBucketSize st et).interval
  ∧ (buildMetricsResponse ([] : List Unit) (determineBucketSize none none)).bucket_size = "1m"
  ∧ (buildMetricsResponse ([] : List Unit) (determineBucketSize none none)).bucket_label
        = "1 MINUTE" :=
  ⟨rfl, rfl, rfl, rfl⟩

/-- C9: on zero matching rows, the full-record scan leaves the Go nil
slice (JSON `null`) while the projected scan returns a non-nil empty
slice (JSON `[]`). -/
theorem c9_nil_vs_empty_data (enc : QueryLogRecord → String) (encD : DynamicRow → String) :
    scanQueryLogs [] = none
  ∧ scanDynamicRows [] = some []
  ∧ goSliceJSON enc (scanQueryLogs []) = "null"
  ∧ goSliceJSON encD (scanDynamicRows []) = "[]" :=
  ⟨rfl, rfl, rfl, rfl⟩

/-- C8: the by-id query filters only on exact `query_id` equality and,
unlike all three builders (whose condition lists unconditionally carry
the start-phase exclusion), does not exclude `QueryStart` events; for an
id whose only stored record is a start-phase event, evaluating the by-id
query returns that record instead of reporting not-found. -/
theorem c8_byid_returns_start_phase (f : QueryLogFilter) :
    "query_id = ?".data <:+: getQueryLogByIDQuery.data
  ∧ ¬ ("type != 'QueryStart'".data <:+: getQueryLogByIDQuery.data)
  ∧ "type != 'QueryStart'" ∈ listingConds f
  ∧ "type != 'QueryStart'" ∈ dynamicConds f
  ∧ "type != 'QueryStart'" ∈ aggConds f
  ∧ getQueryLogByIDEval [{queryID := "abc123", type := "QueryStart", eventTime := 5}] "abc123"
      = some {queryID := "abc123", type := "QueryStart", eventTime := 5} := by
  refine ⟨by decide, by decide, ?_, ?_, ?_, by decide⟩
  · simp [listingConds]
  · simp [dynamicConds]
  · simp [aggConds]

/-- C7: the failed-query classification shared by the only-failed
predicate and the aggregation's failed counter: exception code 0 with
phase `QueryFinish` is never failed; a non-zero exception code, or phase
`ExceptionBeforeStart`, is always failed.  The first two conjuncts tie
the classification to the source: the listing conditions carry the
predicate when `only_failed` is set, and the aggregation skeleton carries
the same predicate inside its `SUM(CASE WHEN ...)` counter. -/
theorem c7_failed_classification (f : QueryLogFilter) (r : QueryLogRecord)
    (hf : f.onlyFailed = true) :
    "(exception_code != 0 OR type = 'ExceptionBeforeStart')" ∈ listingConds f
  ∧ "exception_code != 0 OR type = 'ExceptionBeforeStart'".data <:+: aggBaseSuffix.data
  ∧ (r.exceptionCode = 0 ∧ r.type = "QueryFinish" → isFailedRecord r = false)
  ∧ (r.exceptionCode ≠ 0 → isFailedRecord r = true)
  ∧ (r.type = "ExceptionBeforeStart" → isFailedRecord r = true) := by
  refine ⟨?_, by decide, ?_, ?_, ?_⟩
  · simp [listingConds, hf]
  · rintro ⟨h1, h2⟩
    simp [isFailedRecord, h1, h2]
  · intro h
    simp [isFailedRecord, h]
  · intro h
    simp [isFailedRecord, h]

/-- Witness for `c7_failed_classification` at a concrete filter and a
concrete failed record. -/
theorem c7_failed_classification_witness :
    isFailedRecord {exceptionCode := 10} = true :=
  (c7_failed_classification {onlyFailed := true} {exceptionCode := 10} rfl).2.2.2.1 (by decide)

/-- C2 (evidence of the divergence): for a listing request with no limit
parameter the handler reports pagination limit 100, yet the executed
query is bound to LIMIT 1000 — the repository clamp (default 1000, max
10000) governs the query because the handler never writes its 100/1000
clamp back into the filter; and an export request for 50000 rows (within
the documented export max of 100000) executes with LIMIT 10000 because
`GetQueryLogsDynamic` re-clamps at the repository max. -/
theorem c2_effective_limit_divergence :
    handleGetQueryLogs {} =
      HandlerOutcome.storeQuery (buildQueryLogsQuery {}).1 [Arg.int 1000] 100
  ∧ clampRepoLimit 0 = 1000
  ∧ paginationLimit 0 = 100
  ∧ handleExportCSV {limit := 50000, columns := "query_id"} =
      HandlerOutcome.storeQuery
        (buildDynamicQuery {limit := 50000, columns := "query_id"} ["query_id"]).1
        [Arg.int 10000] 50000
  ∧ clampRepoLimit 50000 = 10000
  ∧ exportLimitClamp 50000 = 50000 := by
  refine ⟨by decide, by decide, by decide, by decide, by decide, by decide⟩

/-- C3 counterexample: with `query_kind = "Select"` the listing query
carries the query-kind predicate (and binds the value) while the
projected query does not; with `query_id = "q1"` the listing query
carries the exact-id predicate while the aggregation query does not.  So
the three builders do not emit the same WHERE predicate set for the same
filter. -/
theorem c3_counterexample :
    "query_kind = ?" ∈ listingConds {queryKind := "Select"}
  ∧ "query_kind = ?" ∉ dynamicConds {queryKind := "Select"}
  ∧ "query_id = ?" ∈ listingConds {queryID := "q1"}
  ∧ "query_id = ?" ∉ aggConds {queryID := "q1"}
  ∧ Arg.str "Select" ∈ (buildQueryLogsQuery {queryKind := "Select"}).2
  ∧ Arg.str "Select" ∉ (buildDynamicQuery {queryKind := "Select"} AllColumns).2 := by
  decide

/-- C3 as amended, for every filter: each of the ten filter fields
contributes its predicate to the listing query exactly when it is active
(and the start-phase exclusion is always present); the projected builder
emits exactly the listing builder's conditions and arguments for the
same filter with the query-kind field cleared (i.e. listing minus the
query-kind predicate); and the aggregation builder's conditions are a
permutation of the listing builder's for the same filter with both
query-kind and query-id cleared (the start-phase exclusion is ordered
first), with identical filter arguments — aggregation adding no
pagination. -/
theorem c3_amended_predicate_sets (f : QueryLogFilter) :
    ("has(databases, ?)" ∈ listingConds f ↔ ((f.dbName != "") = true))
  ∧ ("query_id = ?" ∈ listingConds f ↔ ((f.queryID != "") = true))
  ∧ "type != 'QueryStart'" ∈ listingConds f
  ∧ ("(exception_code != 0 OR type = 'ExceptionBeforeStart')" ∈ listingConds f
      ↔ f.onlyFailed = true)
  ∧ ("(type = 'QueryFinish' AND exception_code = 0)" ∈ listingConds f
      ↔ f.onlySuccess = true)
  ∧ ("query_duration_ms > ?" ∈ listingConds f ↔ 0 < f.minDurationMs)
  ∧ ("user = ?" ∈ listingConds f ↔ ((f.user != "") = true))
  ∧ ("positionCaseInsensitive(query, ?) > 0" ∈ listingConds f
      ↔ ((f.queryContains != "") = true))
  ∧ ("query_kind = ?" ∈ listingConds f ↔ ((f.queryKind != "") = true))
  ∧ ("event_time >= ?" ∈ listingConds f ↔ f.startTime.isSome = true)
  ∧ ("event_time <= ?" ∈ listingConds f ↔ f.endTime.isSome = true)
  ∧ dynamicConds f = listingConds {f with queryKind := ""}
  ∧ dynamicCondArgs f = listingCondArgs {f with queryKind := ""}
  ∧ (aggConds f).Perm (listingConds {f with queryKind := "", queryID := ""})
  ∧ aggCondArgs f = listingCondArgs {f with queryKind := "", queryID := ""} := by
  refine ⟨?_, ?_, ?_, ?_, ?_, ?_, ?_, ?_, ?_, ?_, ?_, ?_, ?_, ?_, ?_⟩
  · simp [listingConds, mem_ite_singleton_iff]
  · simp [listingConds, mem_ite_singleton_iff]
  · simp [listingConds]
  · simp [listingConds, mem_ite_singleton_iff]
  · simp [listingConds, mem_ite_singleton_iff]
  · simp [listingConds, mem_ite_singleton_iff]
  · simp [listingConds, mem_ite_singleton_iff]
  · simp [listingConds, mem_ite_singleton_iff]
  · simp [listingConds, mem_ite_singleton_iff]
  · simp [listingConds, mem_ite_singleton_iff]
  · simp [listingConds, mem_ite_singleton_iff]
  · simp [dynamicConds, listingConds]
  · simp [dynamicCondArgs, listingCondArgs]
  · simp only [aggConds, listingConds]
    simp [List.append_assoc]
    exact List.perm_middle.symm
  · simp [aggCondArgs, listingCondArgs]

/-- Witness for `c3_amended_predicate_sets` at a concrete filter with an
active user field and an active query-kind field. -/
theorem c3_amended_predicate_sets_witness :
    "user = ?" ∈ listingConds {user := "alice", queryKind := "Select"}
  ∧ dynamicConds {user := "alice", queryKind := "Select"}
      = listingConds {user := "alice", queryKind := ""}
  ∧ (aggConds {user := "alice", queryKind := "Select"}).Perm
      (listingConds {user := "alice", queryKind := "", queryID := ""}) := by
  obtain ⟨h1, h2, h3, h4, h5, h6, h7, h8, h9, h10, h11, h12, h13, h14, h15⟩ :=
    c3_amended_predicate_sets {user := "alice", queryKind := "Select"}
  exact ⟨h7.mpr (by decide), h12, h14⟩

/-- C4 counterexample: `query_duration_ms` is sort-eligible, yet the
projected-columns query built for `sort_by = "query_duration_ms",
sort_order = "asc"` orders by `event_time DESC`, while the full-record
listing for the same filter orders by `query_duration_ms ASC`. -/
theorem c4_counterexample :
    ValidSortColumns "query_duration_ms" = true
  ∧ (buildDynamicQuery {sortBy := "query_duration_ms", sortOrder := "asc"} ["query_id"]).1
      = "SELECT query_id FROM system.query_log WHERE type != 'QueryStart' ORDER BY event_time DESC LIMIT ?"
  ∧ " ORDER BY query_duration_ms ASC".data <:+:
      (buildQueryLogsQuery {sortBy := "query_duration_ms", sortOrder := "asc"}).1.data := by
  refine ⟨by decide, by decide, by decide⟩

/-- C4 as amended: the full-record listing resolves ORDER BY from the
requested sort_by and sort_order exactly as claimed — the requested
column when it is sort-eligible, `event_time` otherwise, `ASC` only for
sort_order `"asc"` — and the resolved column is always allow-listed, so
an invalid sort_by is never interpolated; the projected-columns path,
however, ignores sort_by and sort_order entirely and always emits
`ORDER BY event_time DESC`. -/
theorem c4_amended_sort_resolution (f : QueryLogFilter) (cols : List String) :
    ((f.sortBy != "") = true → ValidSortColumns f.sortBy = true →
      listingSortColumn f = f.sortBy)
  ∧ (ValidSortColumns f.sortBy = false → listingSortColumn f = "event_time")
  ∧ ValidSortColumns (listingSortColumn f) = true
  ∧ ((f.sortOrder == "asc") = true → listingSortDir f = "ASC")
  ∧ ((f.sortOrder == "asc") = false → listingSortDir f = "DESC")
  ∧ (buildQueryLogsQuery f).1 =
      listingBaseQuery ++ whereClause (listingConds f) ++ " ORDER BY " ++
        listingSortColumn f ++ " " ++ listingSortDir f ++ " LIMIT ?" ++
        (if f.offset > 0 then " OFFSET ?" else "")
  ∧ (buildDynamicQuery f cols).1 =
      "SELECT " ++ stringsJoin cols ", " ++ " FROM system.query_log" ++
        whereClause (dynamicConds f) ++ " ORDER BY event_time DESC" ++ " LIMIT ?" ++
        (if f.offset > 0 then " OFFSET ?" else "") := by
  refine ⟨?_, ?_, ?_, ?_, ?_, rfl, rfl⟩
  · intro h1 h2
    simp [listingSortColumn, h1, h2]
  · intro h
    simp [listingSortColumn, h]
  · simp only [listingSortColumn]
    split
    · rename_i h
      exact (Bool.and_elim_right h)
    · decide
  · intro h
    simp [listingSortDir, h]
  · intro h
    simp [listingSortDir, h]

/-- Witness for `c4_amended_sort_resolution` at a concrete filter whose
sort_by is not sort-eligible. -/
theorem c4_amended_sort_resolution_witness :
    listingSortColumn {sortBy := "user; drop table x"} = "event_time"
  ∧ ValidSortColumns (listingSortColumn {sortBy := "user; drop table x"}) = true :=
  ⟨(c4_amended_sort_resolution {sortBy := "user; drop table x"} []).2.1 (by decide),
   (c4_amended_sort_resolution {sortBy := "user; drop table x"} []).2.2.1⟩

/-- `parseColumnsLoop` restricted to already-trimmed, non-empty
components: validate each against the registry, failing on the first
invalid one. -/
def parseCleanLoop : List String → Except String (List String)
  | [] => Except.ok []
  | c :: rest =>
    if ValidColumns c then
      match parseCleanLoop rest with
      | Except.ok v => Except.ok (c :: v)
      | Except.error e => Except.error e
    else Except.error ("invalid column: " ++ c)

theorem parseColumnsLoop_eq (raw : List String) :
    parseColumnsLoop raw
      = parseCleanLoop ((raw.map goTrimSpace).filter (fun c => c != "")) := by
  induction raw with
  | nil => rfl
  | cons c rest ih =>
    by_cases h : (goTrimSpace c == "") = true
    · simp [parseColumnsLoop, bne, h, ih]
    · simp [parseColumnsLoop, parseCleanLoop, bne, h, ih]

theorem parseCleanLoop_ok (l : List String) (h : ∀ c ∈ l, ValidColumns c = true) :
    parseCleanLoop l = Except.ok l := by
  induction l with
  | nil => rfl
  | cons c rest ih =>
    have hc := h c (by simp)
    have hr := ih (fun x hx => h x (by simp [hx]))
    simp [parseCleanLoop, hc, hr]

theorem parseCleanLoop_err (l : List String) (c : String) :
    l.find? (fun x => !ValidColumns x) = some c →
    parseCleanLoop l = Except.error ("invalid column: " ++ c) := by
  induction l with
  | nil => intro h; simp at h
  | cons x rest ih =>
    intro h
    by_cases hx : ValidColumns x = true
    · rw [List.find?_cons_of_neg] at h
      · have hr := ih h
        simp [parseCleanLoop, hx, hr]
      · simp [hx]
    · rw [List.find?_cons_of_pos] at h
      · obtain rfl : x = c := by injection h
        simp [parseCleanLoop, hx]
      · simp [hx]

/-- C5 counterexample: the projection request `columns=","` carries no
column name at all — vacuously, all of its names are in the registry —
yet parsing fails (with an error that names no column) and the handler
answers 400 instead of building a query. -/
theorem c5_counterexample :
    requestedColumnNames "," = []
  ∧ (∀ c ∈ requestedColumnNames ",", ValidColumns c = true)
  ∧ ParseColumns "," = Except.error "at least one valid column is required"
  ∧ handleGetQueryLogs {columns := ","} =
      HandlerOutcome.badRequest "invalid_columns" "at least one valid column is required" := by
  refine ⟨by decide, by decide, rfl, by decide⟩

/-- C5 as amended: for every projection request (non-empty `columns`)
containing a name outside the Column Registry, the handler answers 400
`invalid_columns` with a message naming the first offending column and
issues no store call; for every projection request carrying at least one
name, all of whose names are in the registry, parsing succeeds with
exactly those names and the handler issues the projected query over
exactly those columns. -/
theorem c5_amended_column_allowlist (f : QueryLogFilter)
    (hcols : (f.columns != "") = true) :
    (∀ c, (requestedColumnNames f.columns).find? (fun x => !ValidColumns x) = some c →
      handleGetQueryLogs f
        = HandlerOutcome.badRequest "invalid_columns" ("invalid column: " ++ c))
  ∧ ((∀ c ∈ requestedColumnNames f.columns, ValidColumns c = true) →
      requestedColumnNames f.columns ≠ [] →
      ParseColumns f.columns = Except.ok (requestedColumnNames f.columns)
    ∧ handleGetQueryLogs f =
        HandlerOutcome.storeQuery
          (buildDynamicQuery f (requestedColumnNames f.columns)).1
          (buildDynamicQuery f (requestedColumnNames f.columns)).2
          (paginationLimit f.limit)) := by
  have hsplit : parseColumnsLoop (goSplitComma f.columns)
      = parseCleanLoop (requestedColumnNames f.columns) := by
    rw [parseColumnsLoop_eq]
    rfl
  have hne : (f.columns == "") = false := by
    simpa [bne] using hcols
  constructor
  · intro c hfind
    have herr := parseCleanLoop_err _ c hfind
    simp [handleGetQueryLogs, hcols, ParseColumns, hne, hsplit, herr]
  · intro hall hnonempty
    have hok := parseCleanLoop_ok _ hall
    have hparse : ParseColumns f.columns = Except.ok (requestedColumnNames f.columns) := by
      have hstep : ParseColumns f.columns =
          match parseCleanLoop (requestedColumnNames f.columns) with
          | Except.error e => Except.error e
          | Except.ok [] => Except.error "at least one valid column is required"
          | Except.ok v => Except.ok v := by
        simp [ParseColumns, hne, hsplit]
      rw [hstep, hok]
      cases hL : requestedColumnNames f.columns with
      | nil => exact absurd hL hnonempty
      | cons a as => rfl
    refine ⟨hparse, ?_⟩
    simp [handleGetQueryLogs, hcols, hparse]

/-- Witness for `c5_amended_column_allowlist`: a request naming
`bogus_col` is rejected naming that column; a request naming
`query_id, user` builds the projected query over exactly those two
columns. -/
theorem c5_amended_column_allowlist_witness :
    handleGetQueryLogs {columns := "query_id,bogus_col"} =
      HandlerOutcome.badRequest "invalid_columns" "invalid column: bogus_col"
  ∧ handleGetQueryLogs {columns := "query_id, user", limit := 7} =
      HandlerOutcome.storeQuery
        (buildDynamicQuery {columns := "query_id, user", limit := 7} ["query_id", "user"]).1
        (buildDynamicQuery {columns := "query_id, user", limit := 7} ["query_id", "user"]).2
        7 := by
  constructor
  · exact (c5_amended_column_allowlist {columns := "query_id,bogus_col"} (by decide)).1
      "bogus_col" (by decide)
  · exact ((c5_amended_column_allowlist {columns := "query_id, user", limit := 7}
      (by decide)).2 (by decide) (by decide)).2

/-- Witness for `c6_bucket_sizer` at a concrete 4-minute span. -/
theorem c6_bucket_sizer_witness :
    determineBucketSize (some 0) (some (4 * nsMinute))
      = bucketPolicySpec (some 0) (some (4 * nsMinute)) :=
  (c6_bucket_sizer (some 0) (some (4 * nsMinute))).1

/-- Witness for `c8_byid_returns_start_phase` at the empty filter. -/
theorem c8_byid_returns_start_phase_witness :
    "type != 'QueryStart'" ∈ listingConds {} :=
  (c8_byid_returns_start_phase {}).2.2.1

/-- Witness for `c9_nil_vs_empty_data` at a trivial element encoder. -/
theorem c9_nil_vs_empty_data_witness :
    goSliceJSON (fun _ => "") (scanQueryLogs []) = "null" :=
  (c9_nil_vs_empty_data (fun _ => "") (fun _ => "")).2.2.1

/-- Witness for `c10_bucket_fields_swapped` at the default bucket. -/
theorem c10_bucket_fields_swapped_witness :
    (buildMetricsResponse ([] : List Unit) (determineBucketSize none none)).bucket_size = "1m" :=
  (c10_bucket_fields_swapped ([] : List Unit) none none).2.2.1

end QueryMonitor
